import Mathlib

/-!
Verification development for `parrot_tools/generate/stable_diffusion_pipeline.py`.

The file shallowly embeds the module's orchestration logic:

* floats are modelled as exact rationals (`ℚ`);
* tensors are flat lists of rationals (`Tensor`); shape bookkeeping that a
  claim needs is carried separately (`Tensor4` for the preprocessed image);
* the external collaborators (tokenizer, text encoder, unet, scheduler, vae,
  feature extractor, safety checker, and PIL's resampling kernel) are opaque
  function parameters collected in `Env`;
* fallible code returns `Except PipeError`; each `PipeError` constructor
  carries the values the corresponding Python exception message cites;
* collaborator invocations are logged in order in a `List Call` trace, so
  that "raised before any collaborator is invoked" is expressible.
-/

namespace ParrotTools

/-- A tensor: flat list of (exact-rational) scalars. -/
abbrev Tensor := List ℚ

/-- Scalar multiplication of a tensor, e.g. `0.18215 * init_latents`. -/
def scalarMul (a : ℚ) (t : Tensor) : Tensor := t.map fun x => a * x

/-- An RGB pixel: three 8-bit channel values. -/
abbrev Pix := Fin 256 × Fin 256 × Fin 256

/-- Channel accessor for a pixel; channels 0,1,2 are R,G,B. -/
def chan (p : Pix) : ℕ → ℕ
  | 0 => p.1
  | 1 => p.2.1
  | 2 => p.2.2
  | _ => 0

/-- A PIL image after `convert("RGB")`: width, height and a pixel grid.
PIL images have positive dimensions (`Image.resize` refuses zero targets),
so positivity is bundled. -/
structure Img where
  w : ℕ
  h : ℕ
  wpos : 0 < w
  hpos : 0 < h
  px : ℕ → ℕ → Pix

/-- A Python value that may appear as a prompt list element. -/
inductive PyVal where
  | str (s : String)
  | int (n : ℤ)
deriving DecidableEq

/-- A Python value passed as the `prompt` argument: a string, a list, or
something else (represented by an integer, the spec's example). -/
inductive PromptVal where
  | pstr (s : String)
  | plist (xs : List PyVal)
  | pint (n : ℤ)
deriving DecidableEq

/-- Errors the pipeline can raise.  Each constructor carries the data the
corresponding Python exception message cites. -/
inductive PipeError where
  /-- ValueError: prompt has to be of type str or list but is {type}. -/
  | badPromptType (p : PromptVal)
  /-- ValueError: height and width have to be divisible by 8 but are {h} and {w}. -/
  | dimsNotDiv8 (height width : ℕ)
  /-- ValueError: the value of strength should in [0.0, 1.0] but is {s}. -/
  | strengthOutOfRange (s : ℚ)
  /-- ValueError raised by PIL when `Image.resize` is given a zero target
  dimension: "height and width must be > 0". -/
  | resizeZero
  /-- UnboundLocalError: `init_timestep` is referenced at `t_start` but is only
  assigned inside the seed-image branch. -/
  | unboundLocalInitTimestep
deriving DecidableEq

/-- `image.resize((w, h), resample=PIL.Image.LANCZOS)`.  The resampling kernel
itself is an external collaborator, modelled by `oracle` (any pixel grid of
the requested size); PIL raises ValueError("height and width must be > 0")
when a target dimension is zero, modelled as `PipeError.resizeZero`. -/
def pilResize (oracle : ℕ → ℕ → Img → ℕ → ℕ → Pix) (w h : ℕ) (img : Img) :
    Except PipeError Img :=
  if hw : 0 < w then
    if hh : 0 < h then .ok ⟨w, h, hw, hh, oracle w h img⟩
    else .error .resizeZero
  else .error .resizeZero

/-- `scale_image(image, max_pixels)` (source lines 20-28):

    scale = np.sqrt(max_pixels / (w * h))
    if scale < 1.0:
        image = image.resize((int(w * scale), int(h * scale)), LANCZOS)

Exact-arithmetic translation (w, h > 0): `scale < 1` iff `max_pixels < w * h`,
and `int(w * scale) = ⌊√(w² · max_pixels / (w·h))⌋ = ⌊√(w · max_pixels / h)⌋`,
which for a natural-number radicand is `Nat.sqrt (w * max_pixels / h)` (the
floor of the square root of a nonnegative real equals the floor of the square
root of its floor).  Symmetrically for the height. -/
def scale_image (oracle : ℕ → ℕ → Img → ℕ → ℕ → Pix) (img : Img)
    (max_pixels : ℕ) : Except PipeError Img :=
  if max_pixels < img.w * img.h then
    pilResize oracle (Nat.sqrt (img.w * max_pixels / img.h))
      (Nat.sqrt (img.h * max_pixels / img.w)) img
  else .ok img

/-- The result of `preprocess`: a tensor of shape `(n, c, h, w)` with `n = 1`
and `c = 3`; `data` is indexed by (channel, row, column) within the single
batch element. -/
structure Tensor4 where
  n : ℕ
  c : ℕ
  h : ℕ
  w : ℕ
  data : ℕ → ℕ → ℕ → ℚ

/-- Row-major flattening of a `Tensor4` (what `vae.encode` receives). -/
def Tensor4.flatten (T : Tensor4) : Tensor :=
  (List.range (T.n * T.c * T.h * T.w)).map fun i =>
    T.data (i / (T.h * T.w) % T.c) (i / T.w % T.h) (i % T.w)

/-- `preprocess(image, max_pixels)` (source lines 31-46):

    image = image.convert("RGB")                      -- input modelled as RGB
    image = scale_image(image, max_pixels=max_pixels)
    w, h = image.size
    w, h = map(lambda x: x - x % 64, (w, h))
    image = image.resize((w, h), resample=LANCZOS)
    image = np.array(image).astype(np.float32) / 255.0
    image = image[None].transpose(0, 3, 1, 2)
    return 2.0 * image - 1.0
-/
def preprocess (oracle : ℕ → ℕ → Img → ℕ → ℕ → Pix) (img : Img)
    (max_pixels : ℕ) : Except PipeError Tensor4 :=
  match scale_image oracle img max_pixels with
  | .error e => .error e
  | .ok mid =>
    let w := mid.w - mid.w % 64
    let h := mid.h - mid.h % 64
    match pilResize oracle w h mid with
    | .error e => .error e
    | .ok img2 =>
      .ok ⟨1, 3, img2.h, img2.w,
        fun c y x => 2 * ((chan (img2.px y x) c : ℚ) / 255) - 1⟩

/-- Python `int()` applied to a rational: truncation toward zero
(`Rat.floor` is the executable floor; see `ratFloor_eq`). -/
def pyInt (q : ℚ) : ℤ := if q < 0 then -Rat.floor (-q) else Rat.floor q

/-- Source lines 173-174:

    init_timestep = int(num_inference_steps * init_strength) + offset
    init_timestep = min(init_timestep, num_inference_steps)
-/
def init_timestep_of (num_inference_steps : ℕ) (init_strength : ℚ)
    (offset : ℕ) : ℕ :=
  min ((pyInt ((num_inference_steps : ℚ) * init_strength)).toNat + offset)
    num_inference_steps

/-- Modelled from the claim's words (for refinement comparison only): the
starting timestep computed with `round` instead of the source's `int`
truncation: `min(round(num_inference_steps * init_strength) + offset,
num_inference_steps)`. -/
def init_timestep_claim (num_inference_steps : ℕ) (init_strength : ℚ)
    (offset : ℕ) : ℕ :=
  min ((round ((num_inference_steps : ℚ) * init_strength)).toNat + offset)
    num_inference_steps

/-- Python negative indexing `l[-k]` (used as `scheduler.timesteps[-init_timestep]`):
`l[-0]` is `l[0]`; otherwise the element `k` from the end.  Out-of-range
indices are given a default (the scheduler contract keeps `k ≤ l.length`). -/
def pyNegIndex (l : List ℤ) (k : ℕ) : ℤ :=
  if k = 0 then l.getD 0 0 else l.getD (l.length - k) 0

/-- The collaborator invocations the orchestration layer makes, in order. -/
inductive Call where
  | tokenize
  | textEncode
  | tokenizeUncond
  | textEncodeUncond
  | setTimesteps
  | vaeEncode
  | addNoise
  | unetCall
  | schedStep
  | vaeDecode
  | featureExtract
  | safetyCheck
deriving DecidableEq

/-- The external collaborators of the pipeline, consumed through narrow
contracts (spec section 1): all opaque functions. -/
structure Env where
  /-- `tokenizer(prompt, ...)` → `input_ids`. -/
  tokenize : PromptVal → List ℤ
  /-- `tokenizer([""] * batch_size, ...)` → `input_ids`. -/
  tokenizeUncondIds : ℕ → List ℤ
  /-- `text_encoder(input_ids)[0]`. -/
  textEncode : List ℤ → Tensor
  /-- `unet(latent_model_input, t, encoder_hidden_states)["sample"]`. -/
  unet : Tensor → ℤ → Tensor → Tensor
  /-- `isinstance(self.scheduler, LMSDiscreteScheduler)`. -/
  isLMS : Bool
  /-- whether `scheduler.set_timesteps` accepts an `offset` parameter. -/
  acceptsOffset : Bool
  /-- whether `scheduler.step` accepts an `eta` parameter. -/
  acceptsEta : Bool
  /-- `scheduler.timesteps` after `set_timesteps(num_inference_steps, offset?)`. -/
  timesteps : ℕ → ℕ → List ℤ
  /-- `scheduler.sigmas` after `set_timesteps`. -/
  sigmas : ℕ → ℕ → List ℚ
  /-- models `σ ↦ 1 / (σ² + 1) ** 0.5`, the K-LMS continuous-ODE input
  rescaling factor; kept opaque because its value is irrational. -/
  sigmaRescale : ℚ → ℚ
  /-- `scheduler.add_noise(init_latents, noise, timesteps)`. -/
  addNoise : Tensor → Tensor → ℤ → Tensor
  /-- `scheduler.step(noise_pred, t_or_index, latents, eta?)["prev_sample"]`;
  the `eta` keyword is present iff `acceptsEta`. -/
  schedStep : Tensor → ℤ → Tensor → Option ℚ → Tensor
  /-- `vae.encode(image).sample()`. -/
  vaeEncodeSample : Tensor → Tensor
  /-- `vae.decode(latents)`. -/
  vaeDecode : Tensor → Tensor
  /-- `feature_extractor(numpy_to_pil(image)).pixel_values`. -/
  featureExtract : Tensor → Tensor
  /-- `safety_checker(images, clip_input)` → (possibly redacted images, flags). -/
  safetyCheck : Tensor → Tensor → Tensor × List Bool
  /-- PIL's LANCZOS resampling kernel (see `pilResize`). -/
  resizeOracle : ℕ → ℕ → Img → ℕ → ℕ → Pix

/-- The `init_image` argument: a pre-encoded `torch.FloatTensor` or a PIL
image. -/
inductive InitImage where
  | tensor (t : Tensor)
  | pil (img : Img)

/-- The returned record `{"sample": image, "nsfw_content_detected": flags}`. -/
structure Output where
  sample : Tensor
  nsfw : List Bool
deriving DecidableEq

/-- Source lines 97-104: prompt type dispatch.

    if isinstance(prompt, str): batch_size = 1
    elif isinstance(prompt, list): batch_size = len(prompt)
    else: raise ValueError(...)
-/
def batch_size_of : PromptVal → Except PipeError ℕ
  | .pstr _ => .ok 1
  | .plist xs => .ok xs.length
  | .pint n => .error (.badPromptType (.pint n))

/-- Whether the prompt is a string or a list of strings (the claim's
well-typedness notion; the source only checks str-vs-list). -/
def promptWellTyped : PromptVal → Bool
  | .pstr _ => true
  | .plist xs => xs.all fun x => match x with | .str _ => true | .int _ => false
  | .pint _ => false

/-- `torch.chunk(noise_pred, 2)`: split the (even-length, doubled-batch)
tensor into its two halves. -/
def chunk2 (l : Tensor) : Tensor × Tensor :=
  (l.take (l.length / 2), l.drop (l.length / 2))

/-- Apply the K-LMS input rescaling factor when the scheduler is LMS. -/
def applySigma : Option ℚ → Tensor → Tensor
  | some f, l => scalarMul f l
  | none, l => l

/-- Source lines 222-244, the per-step noise prediction:

    latent_model_input = torch.cat([latents] * 2) if do_cfg else latents
    (if LMS: latent_model_input = latent_model_input / ((sigma**2 + 1) ** 0.5))
    noise_pred = unet(latent_model_input, t, encoder_hidden_states=text_embeddings)["sample"]
    if do_cfg:
        uncond, cond = noise_pred.chunk(2)
        noise_pred = uncond + guidance_scale * (cond - uncond)
-/
def predictNoise (unet : Tensor → ℤ → Tensor → Tensor) (guidance_scale : ℚ)
    (text_embeddings : Tensor) (sigmaFactor : Option ℚ) (latents : Tensor)
    (t : ℤ) : Tensor :=
  let latent_model_input :=
    if 1 < guidance_scale then latents ++ latents else latents
  let latent_model_input := applySigma sigmaFactor latent_model_input
  let noise_pred := unet latent_model_input t text_embeddings
  if 1 < guidance_scale then
    List.zipWith (fun nu nc => nu + guidance_scale * (nc - nu))
      (chunk2 noise_pred).1 (chunk2 noise_pred).2
  else noise_pred

/-- Source lines 117-147: encode the prompt and, when classifier-free
guidance is enabled (`guidance_scale > 1.0`), also the empty prompt, and
concatenate `[uncond, cond]` along the batch axis (unconditional first). -/
def prepEmbeddings (env : Env) (guidance_scale : ℚ) (prompt : PromptVal)
    (batch_size : ℕ) : Tensor × List Call :=
  let text_input := env.tokenize prompt
  let text_embeddings := env.textEncode text_input
  if 1 < guidance_scale then
    let uncond_input := env.tokenizeUncondIds batch_size
    let uncond_embeddings := env.textEncode uncond_input
    (uncond_embeddings ++ text_embeddings,
      [Call.tokenize, Call.textEncode, Call.tokenizeUncond, Call.textEncodeUncond])
  else
    (text_embeddings, [Call.tokenize, Call.textEncode])

/-- Source lines 161-206: produce the initial latents.  Returns the latents
together with `some init_timestep` in seed-image mode and `none` in
pure-noise mode, where `init_timestep` is never assigned.  The second
component is the collaborator trace of this block. -/
def initLatentsBranch (env : Env) (gen : ℕ → Tensor) (batch_size : ℕ)
    (init_image : Option InitImage) (init_max_pixels : ℕ) (init_strength : ℚ)
    (num_inference_steps offset : ℕ) (ts : List ℤ) :
    Except PipeError (Tensor × Option ℕ) × List Call :=
  match init_image with
  | some ii =>
    let imgT : Except PipeError Tensor :=
      match ii with
      | .tensor t => .ok t
      | .pil im => (preprocess env.resizeOracle im init_max_pixels).map Tensor4.flatten
    match imgT with
    | .error e => (.error e, [])
    | .ok t =>
      let init_latents := env.vaeEncodeSample t
      let init_latents := scalarMul (0.18215 : ℚ) init_latents
      -- init_latents = torch.cat([init_latents] * batch_size)
      let init_latents := (List.replicate batch_size init_latents).flatten
      let init_timestep := init_timestep_of num_inference_steps init_strength offset
      -- LMS: timesteps = [num_inference_steps - init_timestep] * batch_size
      -- else: timesteps = scheduler.timesteps[-init_timestep], replicated
      let tstep : ℤ :=
        if env.isLMS then (num_inference_steps : ℤ) - (init_timestep : ℤ)
        else pyNegIndex ts init_timestep
      let noise := gen 0
      let latents := env.addNoise init_latents noise tstep
      (.ok (latents, some init_timestep), [Call.vaeEncode, Call.addNoise])
  | none =>
    let latents := gen 0
    let latents :=
      if env.isLMS then
        scalarMul ((env.sigmas num_inference_steps offset).getD 0 0) latents
      else latents
    (.ok (latents, none), [])

/-- One iteration of the sampling loop (source lines 220-254). -/
def denoiseStep (env : Env) (guidance_scale : ℚ) (text_embeddings : Tensor)
    (num_inference_steps offset : ℕ) (etaOpt : Option ℚ) (t_start : ℕ)
    (latents : Tensor) (i : ℕ) (t : ℤ) : Tensor :=
  let t_index := t_start + i
  let sigmaFactor :=
    if env.isLMS then
      some (env.sigmaRescale ((env.sigmas num_inference_steps offset).getD t_index 0))
    else none
  let noise_pred :=
    predictNoise env.unet guidance_scale text_embeddings sigmaFactor latents t
  if env.isLMS then env.schedStep noise_pred (t_index : ℤ) latents etaOpt
  else env.schedStep noise_pred t latents etaOpt

/-- The sampling loop: `for i, t in enumerate(scheduler.timesteps[t_start:])`. -/
def denoiseLoop (env : Env) (guidance_scale : ℚ) (text_embeddings : Tensor)
    (num_inference_steps offset : ℕ) (etaOpt : Option ℚ) (ts : List ℤ)
    (t_start : ℕ) (latents : Tensor) : Tensor :=
  ((ts.drop t_start).enum).foldl
    (fun lat p =>
      denoiseStep env guidance_scale text_embeddings num_inference_steps offset
        etaOpt t_start lat p.1 p.2)
    latents

/-- Source lines 256-274: decode, rescale to `[0, 1]`, clamp, and run the
safety checker.  Layout moves (`cpu`, `permute`, `numpy`, `numpy_to_pil`)
are modelled as identities on the flat data. -/
def decodeTail (env : Env) (latents : Tensor) : Output :=
  let latents := scalarMul (1 / (0.18215 : ℚ)) latents
  let image := env.vaeDecode latents
  let image := image.map fun x => max 0 (min 1 (x / 2 + 1 / 2))
  let sci := env.featureExtract image
  let res := env.safetyCheck image sci
  ⟨res.1, res.2⟩

/-- `StableDiffusionPipelineCustom.__call__` (source lines 73-274), with the
collaborator trace.  The deprecated `torch_device` kwarg handling (lines
88-95) is device plumbing with no effect on the computation and is omitted.

Faithfully kept:
* line 106 condition parenthesised exactly as Python parses it:
  `(init_image is not None and height % 8 != 0) or width % 8 != 0`;
* `init_timestep` is only assigned in the seed-image branch; referencing it
  at `t_start` (line 219) in pure-noise mode is an UnboundLocalError;
* `t_start = max(num_inference_steps - init_timestep + offset, 0)` via
  `Int.toNat`.
-/
def call (env : Env) (prompt : PromptVal) (height width : ℕ)
    (init_image : Option InitImage) (init_max_pixels : ℕ) (init_strength : ℚ)
    (num_inference_steps : ℕ) (guidance_scale : ℚ) (eta : ℚ)
    (gen : ℕ → Tensor) : Except PipeError Output × List Call :=
  match batch_size_of prompt with
  | .error e => (.error e, [])
  | .ok batch_size =>
    if (init_image.isSome ∧ height % 8 ≠ 0) ∨ width % 8 ≠ 0 then
      (.error (.dimsNotDiv8 height width), [])
    else if init_image.isSome ∧ (init_strength < 0 ∨ 1 < init_strength) then
      (.error (.strengthOutOfRange init_strength), [])
    else
      let prep := prepEmbeddings env guidance_scale prompt batch_size
      let text_embeddings := prep.1
      let offset : ℕ := if env.acceptsOffset then 1 else 0
      let ts := env.timesteps num_inference_steps offset
      let trace2 := prep.2 ++ [Call.setTimesteps]
      match initLatentsBranch env gen batch_size init_image init_max_pixels
          init_strength num_inference_steps offset ts with
      | (.error e, tr) => (.error e, trace2 ++ tr)
      | (.ok (latents, initTimestepVar), tr) =>
        let trace3 := trace2 ++ tr
        let etaOpt := if env.acceptsEta then some eta else none
        match initTimestepVar with
        | none => (.error .unboundLocalInitTimestep, trace3)
        | some init_timestep =>
          let t_start :=
            ((num_inference_steps : ℤ) - (init_timestep : ℤ) + (offset : ℤ)).toNat
          let latents := denoiseLoop env guidance_scale text_embeddings
            num_inference_steps offset etaOpt ts t_start latents
          let loopTrace :=
            (List.range (ts.drop t_start).length).flatMap
              fun _ => [Call.unetCall, Call.schedStep]
          (.ok (decodeTail env latents),
            trace3 ++ loopTrace ++ [Call.vaeDecode, Call.featureExtract, Call.safetyCheck])

/-! ## Concrete fixtures used by closed theorems and witnesses -/

/-- A black pixel. -/
def pix0 : Pix := (0, 0, 0)

/-- A concrete resampling kernel: everything black. -/
def oracle0 : ℕ → ℕ → Img → ℕ → ℕ → Pix := fun _ _ _ _ _ => pix0

/-- A concrete, fully computable collaborator environment. -/
def env0 : Env where
  tokenize := fun _ => []
  tokenizeUncondIds := fun _ => []
  textEncode := fun _ => [1]
  unet := fun l _ _ => l
  isLMS := false
  acceptsOffset := true
  acceptsEta := true
  timesteps := fun n _ => (List.range n).map Int.ofNat
  sigmas := fun _ _ => []
  sigmaRescale := fun x => x
  addNoise := fun a _ _ => a
  schedStep := fun _ _ l _ => l
  vaeEncodeSample := fun t => t
  vaeDecode := fun t => t
  featureExtract := fun t => t
  safetyCheck := fun im _ => (im, [false])
  resizeOracle := oracle0

/-- A concrete seeded generator (each draw yields `[0]`). -/
def gen0 : ℕ → Tensor := fun _ => [0]

/-- A 128 x 64 black image (both dimensions already multiples of 64). -/
def img128 : Img := ⟨128, 64, by omega, by omega, fun _ _ => pix0⟩

/-- A 32 x 100 black image: under the pixel budget but its width rounds
down to 0 at the multiple-of-64 step. -/
def img32 : Img := ⟨32, 100, by omega, by omega, fun _ _ => pix0⟩

/-- A 100 x 100 black image: under the default pixel budget. -/
def img100 : Img := ⟨100, 100, by omega, by omega, fun _ _ => pix0⟩

/-- The tensor `preprocess oracle0 img128 262144` produces. -/
def T128 : Tensor4 :=
  ⟨1, 3, 64, 128, fun c _ _ => 2 * ((chan pix0 c : ℚ) / 255) - 1⟩

/-! ## Helper lemmas -/

/-- Channel values of a pixel are at most 255. -/
theorem chan_le_255 (p : Pix) (c : ℕ) : chan p c ≤ 255 := by
  match c with
  | 0 => exact Nat.lt_succ_iff.mp p.1.isLt
  | 1 => exact Nat.lt_succ_iff.mp p.2.1.isLt
  | 2 => exact Nat.lt_succ_iff.mp p.2.2.isLt
  | (n + 3) => simp [chan]

/-- The executable `Rat.floor` agrees with the floor function. -/
theorem ratFloor_eq (q : ℚ) : Rat.floor q = ⌊q⌋ := by
  rw [Rat.floor_def', Rat.floor_def]

/-- The scaled dimensions of `scale_image` multiply to at most the pixel
budget: `⌊√(w·m/h)⌋ · ⌊√(h·m/w)⌋ ≤ m`. -/
theorem sqrt_scaled_dims_le (w h m : ℕ) (hw : 0 < w) (hh : 0 < h) :
    Nat.sqrt (w * m / h) * Nat.sqrt (h * m / w) ≤ m := by
  have h1 : Nat.sqrt (w * m / h) * Nat.sqrt (w * m / h) ≤ w * m / h :=
    Nat.sqrt_le _
  have h2 : Nat.sqrt (h * m / w) * Nat.sqrt (h * m / w) ≤ h * m / w :=
    Nat.sqrt_le _
  have h3 : w * m / h * (h * m / w) ≤ w * m * (h * m) / (h * w) :=
    Nat.div_mul_div_le _ _ _ _
  have h4 : w * m * (h * m) / (h * w) = m * m := by
    have : w * m * (h * m) = m * m * (h * w) := by ring
    rw [this, Nat.mul_div_cancel _ (Nat.mul_pos hh hw)]
  have h5 : Nat.sqrt (w * m / h) * Nat.sqrt (h * m / w) *
      (Nat.sqrt (w * m / h) * Nat.sqrt (h * m / w)) ≤ m * m := by
    calc Nat.sqrt (w * m / h) * Nat.sqrt (h * m / w) *
        (Nat.sqrt (w * m / h) * Nat.sqrt (h * m / w))
        = Nat.sqrt (w * m / h) * Nat.sqrt (w * m / h) *
          (Nat.sqrt (h * m / w) * Nat.sqrt (h * m / w)) := by ring
      _ ≤ w * m / h * (h * m / w) := Nat.mul_le_mul h1 h2
      _ ≤ w * m * (h * m) / (h * w) := h3
      _ = m * m := h4
  have := Nat.le_sqrt.mpr h5
  rwa [Nat.sqrt_eq] at this

/-! ## Claims -/

/-- C7: for every image and pixel budget, `scale_image` never increases the
pixel count, and an image whose area is already at most the budget is
returned unchanged. -/
theorem scale_image_area (oracle : ℕ → ℕ → Img → ℕ → ℕ → Pix) (img : Img)
    (max_pixels : ℕ) :
    (∀ out, scale_image oracle img max_pixels = .ok out →
      out.w * out.h ≤ img.w * img.h) ∧
    (img.w * img.h ≤ max_pixels →
      scale_image oracle img max_pixels = .ok img) := by
  constructor
  · intro out hout
    unfold scale_image at hout
    by_cases hlt : max_pixels < img.w * img.h
    · rw [if_pos hlt] at hout
      unfold pilResize at hout
      by_cases h1 : 0 < Nat.sqrt (img.w * max_pixels / img.h)
      · rw [dif_pos h1] at hout
        by_cases h2 : 0 < Nat.sqrt (img.h * max_pixels / img.w)
        · rw [dif_pos h2] at hout
          cases hout
          calc Nat.sqrt (img.w * max_pixels / img.h) *
              Nat.sqrt (img.h * max_pixels / img.w)
              ≤ max_pixels := sqrt_scaled_dims_le _ _ _ img.wpos img.hpos
            _ ≤ img.w * img.h := le_of_lt hlt
        · rw [dif_neg h2] at hout; cases hout
      · rw [dif_neg h1] at hout; cases hout
    · rw [if_neg hlt] at hout
      cases hout
      exact le_refl _
  · intro hle
    unfold scale_image
    rw [if_neg (by omega)]

/-- C7 witness: a 100 x 100 image is under the default budget and is
returned unchanged. -/
theorem scale_image_area_witness :
    scale_image oracle0 img100 262144 = .ok img100 :=
  (scale_image_area oracle0 img100 262144).2 (by decide)

/-- C6: whenever `preprocess` succeeds (the image does not degenerate to zero
size), the result is a tensor of shape (1, 3, height, width) whose height
and width are multiples of 64 and whose every value lies in [-1, 1]. -/
theorem preprocess_shape_range (oracle : ℕ → ℕ → Img → ℕ → ℕ → Pix)
    (img : Img) (max_pixels : ℕ) (T : Tensor4)
    (hok : preprocess oracle img max_pixels = .ok T) :
    T.n = 1 ∧ T.c = 3 ∧ 64 ∣ T.h ∧ 64 ∣ T.w ∧
      ∀ c y x, -1 ≤ T.data c y x ∧ T.data c y x ≤ 1 := by
  unfold preprocess at hok
  cases hscale : scale_image oracle img max_pixels with
  | error e => rw [hscale] at hok; cases hok
  | ok mid =>
    rw [hscale] at hok
    simp only at hok
    unfold pilResize at hok
    by_cases h1 : 0 < mid.w - mid.w % 64
    · rw [dif_pos h1] at hok
      by_cases h2 : 0 < mid.h - mid.h % 64
      · rw [dif_pos h2] at hok
        cases hok
        refine ⟨rfl, rfl, ⟨mid.h / 64, ?_⟩, ⟨mid.w / 64, ?_⟩, ?_⟩
        · show mid.h - mid.h % 64 = 64 * (mid.h / 64)
          omega
        · show mid.w - mid.w % 64 = 64 * (mid.w / 64)
          omega
        intro c y x
        have hnn : (0 : ℚ) ≤ (chan ((oracle (mid.w - mid.w % 64) (mid.h - mid.h % 64) mid) y x) c : ℚ) :=
          Nat.cast_nonneg _
        have hub : (chan ((oracle (mid.w - mid.w % 64) (mid.h - mid.h % 64) mid) y x) c : ℚ) ≤ 255 := by
          exact_mod_cast chan_le_255 _ c
        have hd0 : (0 : ℚ) ≤ (chan ((oracle (mid.w - mid.w % 64) (mid.h - mid.h % 64) mid) y x) c : ℚ) / 255 :=
          div_nonneg hnn (by norm_num)
        have hd1 : (chan ((oracle (mid.w - mid.w % 64) (mid.h - mid.h % 64) mid) y x) c : ℚ) / 255 ≤ 1 :=
          (div_le_one (by norm_num)).mpr hub
        constructor
        · show -1 ≤ 2 * ((chan ((oracle (mid.w - mid.w % 64) (mid.h - mid.h % 64) mid) y x) c : ℚ) / 255) - 1
          linarith
        · show 2 * ((chan ((oracle (mid.w - mid.w % 64) (mid.h - mid.h % 64) mid) y x) c : ℚ) / 255) - 1 ≤ 1
          linarith
      · rw [dif_neg h2] at hok; cases hok
    · rw [dif_neg h1] at hok; cases hok

/-- C6 witness: the 128 x 64 image preprocesses to a (1, 3, 64, 128) tensor
with all values in [-1, 1]. -/
theorem preprocess_shape_range_witness :
    T128.n = 1 ∧ T128.c = 3 ∧ 64 ∣ T128.h ∧ 64 ∣ T128.w ∧
      ∀ c y x, -1 ≤ T128.data c y x ∧ T128.data c y x ≤ 1 :=
  preprocess_shape_range oracle0 img128 262144 T128 rfl

/-- C10: if the dimensions after down-scaling round down to zero at the
multiple-of-64 step, `preprocess` fails with the (PIL-raised) ValueError
rather than producing an empty tensor. -/
theorem preprocess_degenerate_raises (oracle : ℕ → ℕ → Img → ℕ → ℕ → Pix)
    (img : Img) (max_pixels : ℕ) (mid : Img)
    (hmid : scale_image oracle img max_pixels = .ok mid)
    (hdeg : mid.w < 64 ∨ mid.h < 64) :
    preprocess oracle img max_pixels = .error .resizeZero := by
  unfold preprocess
  rw [hmid]
  simp only
  unfold pilResize
  rcases hdeg with hdeg | hdeg
  · have hw0 : mid.w - mid.w % 64 = 0 := by omega
    rw [hw0, dif_neg (by omega)]
  · have hh0 : mid.h - mid.h % 64 = 0 := by omega
    by_cases h1 : 0 < mid.w - mid.w % 64
    · rw [dif_pos h1, hh0, dif_neg (by omega)]
    · rw [dif_neg h1]

/-- C10 witness: the 32 x 100 image (under budget, width rounds to 0) makes
`preprocess` fail with the ValueError. -/
theorem preprocess_degenerate_raises_witness :
    preprocess oracle0 img32 262144 = .error .resizeZero :=
  preprocess_degenerate_raises oracle0 img32 262144 img32 rfl
    (Or.inl (by decide))

/-- C1: if guidance_scale > 1.0 the per-step noise prediction is
`uncond + guidance_scale * (cond - uncond)` where the two halves are split
from a single predictor call on the concatenated [unconditional; conditional]
embeddings (unconditional first); if guidance_scale <= 1.0 the prediction is
the raw conditional-only one and no unconditional embedding is computed
(neither the unconditional tokenizer nor encoder call happens) or used. -/
theorem guidance_combination (env : Env) (prompt : PromptVal) (batch_size : ℕ)
    (guidance_scale : ℚ) (sigmaFactor : Option ℚ) (latents : Tensor) (t : ℤ) :
    (1 < guidance_scale →
      (prepEmbeddings env guidance_scale prompt batch_size).1 =
        env.textEncode (env.tokenizeUncondIds batch_size) ++
          env.textEncode (env.tokenize prompt) ∧
      predictNoise env.unet guidance_scale
          (prepEmbeddings env guidance_scale prompt batch_size).1
          sigmaFactor latents t =
        List.zipWith (fun nu nc => nu + guidance_scale * (nc - nu))
          (chunk2 (env.unet (applySigma sigmaFactor (latents ++ latents)) t
            (prepEmbeddings env guidance_scale prompt batch_size).1)).1
          (chunk2 (env.unet (applySigma sigmaFactor (latents ++ latents)) t
            (prepEmbeddings env guidance_scale prompt batch_size).1)).2) ∧
    (guidance_scale ≤ 1 →
      prepEmbeddings env guidance_scale prompt batch_size =
        (env.textEncode (env.tokenize prompt), [Call.tokenize, Call.textEncode]) ∧
      predictNoise env.unet guidance_scale
          (prepEmbeddings env guidance_scale prompt batch_size).1
          sigmaFactor latents t =
        env.unet (applySigma sigmaFactor latents) t
          (env.textEncode (env.tokenize prompt))) := by
  constructor
  · intro hgs
    constructor
    · unfold prepEmbeddings
      rw [if_pos hgs]
    · unfold predictNoise prepEmbeddings
      rw [if_pos hgs, if_pos hgs, if_pos hgs]
  · intro hgs
    have hngs : ¬ 1 < guidance_scale := not_lt.mpr hgs
    constructor
    · unfold prepEmbeddings
      rw [if_neg hngs]
    · unfold predictNoise prepEmbeddings
      rw [if_neg hngs, if_neg hngs, if_neg hngs]

/-- C1 witness: at guidance_scale = 1 the prediction is the raw
conditional-only one and only the conditional tokenizer/encoder are called. -/
theorem guidance_combination_witness :
    prepEmbeddings env0 1 (.pstr "a") 1 =
      (env0.textEncode (env0.tokenize (.pstr "a")), [Call.tokenize, Call.textEncode]) ∧
    predictNoise env0.unet 1 (prepEmbeddings env0 1 (.pstr "a") 1).1 none [2] 0 =
      env0.unet (applySigma none [2]) 0 (env0.textEncode (env0.tokenize (.pstr "a"))) :=
  (guidance_combination env0 (.pstr "a") 1 1 none [2] 0).2 le_rfl

/-- C2: contrary to the claim, the divisibility ValueError for the width
fires even when no seed image is supplied: Python parses line 106 as
`(init_image is not None and height % 8 != 0) or width % 8 != 0`, so a call
with init_image = None and width = 100 raises the error. -/
theorem width_check_fires_without_seed_image :
    call env0 (.pstr "a") 512 100 none 262144 (4/5) 50 (15/2) 0 gen0 =
      (.error (.dimsNotDiv8 512 100), []) := by rfl

/-- C3: contrary to the claim, in pure-noise mode the run does not complete:
`init_timestep` is only assigned inside the seed-image branch, so the
`t_start` computation at line 219 raises UnboundLocalError. -/
theorem pure_noise_mode_unbound_local :
    (call env0 (.pstr "a") 512 512 none 262144 (4/5) 50 (15/2) 0 gen0).1 =
      .error .unboundLocalInitTimestep := by rfl

/-- C4 counterexample: the source truncates (`int`) rather than rounds: at
num_inference_steps = 2, init_strength = 0.75, offset = 0 the code computes
`min(int(1.5) + 0, 2) = 1` while the claim's formula gives
`min(round(1.5) + 0, 2) = 2`. -/
theorem init_timestep_trunc_ne_round :
    init_timestep_of 2 (3/4) 0 ≠ init_timestep_claim 2 (3/4) 0 := by
  have h1 : pyInt (((2 : ℕ) : ℚ) * (3/4)) = 1 := by with_unfolding_all rfl
  have h2 : round (((2 : ℕ) : ℚ) * (3/4)) = 2 := by norm_num [round_eq]
  unfold init_timestep_of init_timestep_claim
  rw [h1, h2]
  decide

/-- C4 amended: the starting timestep is
`min(int(num_inference_steps * init_strength) + offset, num_inference_steps)`
with `int` truncating toward zero, i.e. the floor for the validated
nonnegative strengths. -/
theorem init_timestep_formula (num_inference_steps : ℕ) (init_strength : ℚ)
    (offset : ℕ) (hs : 0 ≤ init_strength) :
    init_timestep_of num_inference_steps init_strength offset =
      min ((⌊(num_inference_steps : ℚ) * init_strength⌋).toNat + offset)
        num_inference_steps := by
  unfold init_timestep_of pyInt
  rw [if_neg (not_lt.mpr (mul_nonneg (Nat.cast_nonneg _) hs)), ratFloor_eq]

/-- C4 amended witness: at steps = 2, strength = 0.75, offset = 0 the code's
value is the floor-based formula's value. -/
theorem init_timestep_formula_witness :
    init_timestep_of 2 (3/4) 0 =
      min ((⌊(2 : ℚ) * (3/4)⌋).toNat + 0) 2 :=
  init_timestep_formula 2 (3/4) 0 (by norm_num)

/-- C5: with the same deterministic collaborators and identical inputs
(including an identically-seeded generator), two runs of the pipeline return
identical results: the embedded `call` is a pure function of its arguments
and the generator is its only randomness source. -/
theorem call_deterministic (env : Env) (prompt : PromptVal) (height width : ℕ)
    (init_image : Option InitImage) (init_max_pixels : ℕ) (init_strength : ℚ)
    (num_inference_steps : ℕ) (guidance_scale eta : ℚ) (g1 g2 : ℕ → Tensor)
    (hg : g1 = g2) :
    call env prompt height width init_image init_max_pixels init_strength
        num_inference_steps guidance_scale eta g1 =
      call env prompt height width init_image init_max_pixels init_strength
        num_inference_steps guidance_scale eta g2 := by
  rw [hg]

/-- C5 witness: two identically-seeded seed-image runs coincide. -/
theorem call_deterministic_witness :
    call env0 (.pstr "a") 512 512 (some (.tensor [0])) 262144 (4/5) 2 (15/2) 0 gen0 =
      call env0 (.pstr "a") 512 512 (some (.tensor [0])) 262144 (4/5) 2 (15/2) 0 gen0 :=
  call_deterministic env0 (.pstr "a") 512 512 (some (.tensor [0])) 262144 (4/5) 2
    (15/2) 0 gen0 gen0 rfl

/-- C8 counterexample: with no seed image, init_strength = 1.5 raises no
ValueError citing the value: the strength check is nested under the
seed-image branch, so the run proceeds, invokes collaborators (the
tokenizer among them), and ends in the UnboundLocalError instead. -/
theorem strength_check_skipped_without_seed_image :
    (call env0 (.pstr "a") 512 512 none 262144 (3/2) 50 (15/2) 0 gen0).1 =
      .error .unboundLocalInitTimestep ∧
    Call.tokenize ∈ (call env0 (.pstr "a") 512 512 none 262144 (3/2) 50 (15/2) 0 gen0).2 := by
  constructor
  · rfl
  · have h : (call env0 (.pstr "a") 512 512 none 262144 (3/2) 50 (15/2) 0 gen0).2 =
        [Call.tokenize, Call.textEncode, Call.tokenizeUncond, Call.textEncodeUncond,
          Call.setTimesteps] := by with_unfolding_all rfl
    rw [h]
    exact List.mem_cons_self _ _

/-- C8 amended: for every call with a seed image supplied, init_strength
outside [0, 1], and arguments passing the earlier prompt and
height/width checks, the pipeline raises the ValueError citing the
out-of-range value immediately, before any collaborator call. -/
theorem strength_validation (env : Env) (prompt : PromptVal) (bs : ℕ)
    (height width : ℕ) (ii : InitImage) (init_max_pixels : ℕ)
    (init_strength : ℚ) (num_inference_steps : ℕ) (guidance_scale eta : ℚ)
    (g : ℕ → Tensor)
    (hbs : batch_size_of prompt = .ok bs)
    (hh : height % 8 = 0) (hw : width % 8 = 0)
    (hs : init_strength < 0 ∨ 1 < init_strength) :
    call env prompt height width (some ii) init_max_pixels init_strength
        num_inference_steps guidance_scale eta g =
      (.error (.strengthOutOfRange init_strength), []) := by
  unfold call
  rw [hbs]
  simp only
  rw [if_neg (by simp [hh, hw]), if_pos ⟨by simp, hs⟩]

/-- C8 amended witness: seed-image call with strength 1.5 raises the
strength ValueError with no collaborator invoked. -/
theorem strength_validation_witness :
    call env0 (.pstr "a") 512 512 (some (.tensor [0])) 262144 (3/2) 50 (15/2) 0 gen0 =
      (.error (.strengthOutOfRange (3/2)), []) :=
  strength_validation env0 (.pstr "a") 1 512 512 (.tensor [0]) 262144 (3/2) 50
    (15/2) 0 gen0 rfl (by norm_num) (by norm_num) (Or.inr (by norm_num))

/-- C9 counterexample: a list whose element is not a string (here `[3]`) is
neither a string nor a list of strings, yet no ValueError is raised and the
tokenizer collaborator is invoked: the source checks str-vs-list only. -/
theorem list_prompt_elements_not_validated :
    promptWellTyped (.plist [.int 3]) = false ∧
    Call.tokenize ∈
      (call env0 (.plist [.int 3]) 512 512 (some (.tensor [0])) 262144 (4/5) 2 1 0 gen0).2 := by
  constructor
  · rfl
  · have h : (call env0 (.plist [.int 3]) 512 512 (some (.tensor [0])) 262144 (4/5) 2 1 0 gen0).2 =
        [Call.tokenize, Call.textEncode, Call.setTimesteps, Call.vaeEncode, Call.addNoise,
          Call.unetCall, Call.schedStep, Call.vaeDecode, Call.featureExtract,
          Call.safetyCheck] := by with_unfolding_all rfl
    rw [h]
    exact List.mem_cons_self _ _

/-- C9 amended: a prompt that is neither a string nor a list raises the
ValueError describing the bad type before any collaborator is invoked;
otherwise the batch size is 1 for a string and the list's length for any
list (element types are not validated). -/
theorem prompt_validation (env : Env) :
    (∀ s, batch_size_of (.pstr s) = .ok 1) ∧
    (∀ xs, batch_size_of (.plist xs) = .ok xs.length) ∧
    (∀ n height width init_image init_max_pixels init_strength
        num_inference_steps guidance_scale eta g,
      call env (.pint n) height width init_image init_max_pixels init_strength
          num_inference_steps guidance_scale eta g =
        (.error (.badPromptType (.pint n)), [])) :=
  ⟨fun _ => rfl, fun _ => rfl,
    fun _ _ _ _ _ _ _ _ _ _ => rfl⟩

end ParrotTools
